import Mathlib

/-!
# Verification of the AI Proctor content-script session core

Shallow embedding of `extension/content.js` (the interviewer-side
monitoring-session client): the module-level mutable state becomes an
explicit record `PState`, and each event handler of the script
(`startMonitoring`, `stopMonitoring`, the socket `connect` /
`disconnect` / `connect_error` handlers, the `sendVideoFrame` capture
tick, `displayAlert`, the clear-alerts button) becomes a pure state
transformer.  A session run is a fold of an event list over the
transformers.

Environment facts the handlers consult (whether the Socket.IO library
is loaded, whether the target video element is ready / still in the
document, whether frame encoding throws) are parameters of the events.
Two ghost fields instrument the state for the temporal properties:
`sentFrames` logs the times at which `socket.emit('video_frame', ...)`
ran, and `noticesShown` logs the titles of the alerts actually rendered
by `displayAlert`; `enteredMonitoringAt` records the time the `connect`
handler last set `isMonitoring`.
-/

namespace AIProctor

/-- An inbound or internally generated alert record, as passed to
`displayAlert` in `content.js`: `{alert, description, type?}`. -/
structure AlertData where
  alert : String
  description : String
  type : Option String := none
  deriving Repr, DecidableEq

/-- Environment facts sampled by one invocation of `sendVideoFrame`:
whether `targetVideoElement.readyState >= 2 && videoWidth != 0`,
whether `document.body.contains(targetVideoElement)`, and whether the
`drawImage`/`toDataURL` encode succeeds (the `try` block does not
throw).  `replacementAvailable` records whether another qualifying
video element exists on the page at that moment; `content.js` never
reads it (there is no re-acquisition code), which is exactly what the
target-loss claims are about. -/
structure TickEnv where
  targetReady : Bool
  targetInDom : Bool
  encodeOk : Bool
  replacementAvailable : Bool := false
  deriving Repr, DecidableEq

/-- `maxFrameErrors` from `content.js` line 18: `let maxFrameErrors = 10`
(never reassigned). -/
def maxFrameErrors : Nat := 10

/-- `maxAlerts` from `displayAlert` (`content.js` line 112):
`const maxAlerts = 20`. -/
def maxAlerts : Nat := 20

/-- The module-level mutable state of the content script, plus ghost
instrumentation.  `socket` is `none` when the JS variable is
null/undefined and `some c` when a socket object exists with
`socket.connected = c`.  `requestFrameId` is `none` when no capture
timeout is pending and `some t` when a timeout is scheduled to fire at
absolute time `t`.  `alerts` is the child list of
`#proctor-alert-display`, newest first; `hasPlaceholder` records
whether that list currently holds only the `.log-placeholder` span.
`widgetExists` is whether `#ai-proctor-widget` is in the document.
`frameIntervalMs` and `maxReconnectAttempts` are the configuration
values loaded once by `loadConfiguration`.  Ghost fields:
`socketsCreated`, `sentFrames`, `noticesShown`, `enteredMonitoringAt`. -/
structure PState where
  isMonitoring : Bool
  socket : Option Bool
  requestFrameId : Option Nat
  targetVideoElement : Option Nat
  isSelectingCandidate : Bool
  reconnectAttempts : Nat
  frameErrorCount : Nat
  alerts : List AlertData
  hasPlaceholder : Bool
  widgetExists : Bool
  blurListenerAttached : Bool
  targetMarked : Bool
  frameIntervalMs : Nat
  maxReconnectAttempts : Nat
  socketsCreated : Nat
  sentFrames : List Nat
  noticesShown : List String
  enteredMonitoringAt : Option Nat
  deriving Repr, DecidableEq

/-- `displayAlert(alertData)` (`content.js` 61-116): if the alert
display element is missing (no widget) the alert is suppressed;
otherwise the placeholder is cleared, the new alert element is
prepended (`insertBefore(..., firstChild)`), and if the child count
then exceeds `maxAlerts` the last (oldest) child is removed. -/
def displayAlert (a : AlertData) (s : PState) : PState :=
  if !s.widgetExists then s
  else
    let base := if s.hasPlaceholder then [] else s.alerts
    let l := a :: base
    let l := if l.length > maxAlerts then l.dropLast else l
    { s with alerts := l, hasPlaceholder := false,
             noticesShown := a.alert :: s.noticesShown }

/-- Alert texts used by the handlers (apostrophes elided from the
descriptive prose; titles are verbatim). -/
def ioNotLoadedAlert : AlertData :=
  { alert := "🔴 Initialization Error",
    description := "Socket.IO library not loaded yet. Please wait a moment and try again." }

def noCandidateAlert : AlertData :=
  { alert := "🔴 Error: No Candidate Selected",
    description := "Please select a video to monitor before starting." }

def connectionLostAlert (reason : String) : AlertData :=
  { alert := "🔴 Connection Lost",
    description := "Disconnected from the backend server. Reason: " ++ reason }

def connectionErrorAlert (attempts maxA : Nat) : AlertData :=
  { alert := "⚠️ Connection Error",
    description := "Failed to connect to backend (attempt " ++ toString attempts
      ++ "/" ++ toString maxA ++ "). Is the server running?" }

def connectionFailedAlert : AlertData :=
  { alert := "🔴 Connection Failed",
    description := "Could not connect to backend server. Please ensure it is running on port 5002." }

def sessionEndedAlert : AlertData :=
  { alert := "⚪ Session Ended", description := "Monitoring has stopped." }

def videoLostAlert : AlertData :=
  { alert := "🔴 ERROR: Candidate Video Lost",
    description := "The selected candidate video element is no longer available. Please select a new one." }

def captureErrorAlert (n : Nat) : AlertData :=
  { alert := "🔴 Capture Error",
    description := "Failed to capture frames " ++ toString n ++ " times. Stopping monitoring." }

def candidateSelectedAlert : AlertData :=
  { alert := "✅ Candidate Selected",
    description := "Ready to start monitoring. Click the start button." }

/-- `stopMonitoring()` (`content.js` 218-264).  The core block always
runs: `isMonitoring = false`, `socket.disconnect(); socket = null`,
`clearTimeout(requestFrameId); requestFrameId = null`, the blur
listener is removed, and both counters reset.  If the widget is absent,
the target marking class is removed and the target reference nulled,
then return; otherwise the UI is updated, a final "Session Ended" alert
is shown, and the marking/reference are cleared the same way. -/
def stopMonitoring (s : PState) : PState :=
  let s1 := { s with isMonitoring := false, socket := none, requestFrameId := none,
                     blurListenerAttached := false,
                     reconnectAttempts := 0, frameErrorCount := 0 }
  if !s1.widgetExists then
    { s1 with targetMarked := false, targetVideoElement := none }
  else
    let s2 := displayAlert sessionEndedAlert s1
    { s2 with targetMarked := false, targetVideoElement := none }

/-- `sendVideoFrame()` (`content.js` 267-311), one capture tick at
absolute time `t`.  Returns immediately unless monitoring with a
target; otherwise first reschedules itself
(`requestFrameId = setTimeout(sendVideoFrame, FRAME_CAPTURE_INTERVAL)`),
then: skips silently if the video is not ready; stops with a
"Candidate Video Lost" alert if the target left the document; else
encodes — on success it emits the frame and zeroes `frameErrorCount`
only when the socket is connected (otherwise the frame is dropped); on
an encode exception it increments `frameErrorCount` and stops with a
"Capture Error" alert once the count reaches `maxFrameErrors`. -/
def sendVideoFrame (t : Nat) (env : TickEnv) (s : PState) : PState :=
  if !s.isMonitoring || s.targetVideoElement = none then s
  else
    let s := { s with requestFrameId := some (t + s.frameIntervalMs) }
    if !env.targetReady then s
    else if !env.targetInDom then
      stopMonitoring (displayAlert videoLostAlert s)
    else if env.encodeOk then
      if s.socket = some true then
        { s with sentFrames := t :: s.sentFrames, frameErrorCount := 0 }
      else s
    else
      let s := { s with frameErrorCount := s.frameErrorCount + 1 }
      if s.frameErrorCount ≥ maxFrameErrors then
        stopMonitoring (displayAlert (captureErrorAlert s.frameErrorCount) s)
      else s

/-- The `socket.on('connect')` handler (`content.js` 160-169), firing at
time `t`; `socket.connected` is true before the handler runs.  Sets
`isMonitoring`, zeroes both counters, attaches the blur listener, and
starts the capture loop by calling `sendVideoFrame()` synchronously.
When no socket object exists no handler is registered, so the event is
a no-op. -/
def onConnect (t : Nat) (env : TickEnv) (s : PState) : PState :=
  match s.socket with
  | none => s
  | some _ =>
    let s := { s with socket := some true, isMonitoring := true,
                      reconnectAttempts := 0, frameErrorCount := 0,
                      blurListenerAttached := true,
                      enteredMonitoringAt := some t }
    sendVideoFrame t env s

/-- The `socket.on('disconnect')` handler (`content.js` 175-186);
`socket.connected` is false before the handler runs.  While monitoring
it shows a "Connection Lost" alert and calls `stopMonitoring()` only
for the two terminal reasons. -/
def onDisconnect (reason : String) (s : PState) : PState :=
  match s.socket with
  | none => s
  | some _ =>
    let s := { s with socket := some false }
    if s.isMonitoring then
      let s := displayAlert (connectionLostAlert reason) s
      if reason = "io server disconnect" || reason = "io client disconnect" then
        stopMonitoring s
      else s
    else s

/-- The `socket.on('connect_error')` handler (`content.js` 188-204).
Returns at once if `#ai-proctor-widget` is not in the document;
otherwise increments `reconnectAttempts`, shows a progress alert, and
on reaching `maxReconnectAttempts` shows a terminal alert and calls
`stopMonitoring()`. -/
def onConnectError (s : PState) : PState :=
  match s.socket with
  | none => s
  | some _ =>
    if !s.widgetExists then s
    else
      let s := { s with reconnectAttempts := s.reconnectAttempts + 1 }
      let s := displayAlert (connectionErrorAlert s.reconnectAttempts s.maxReconnectAttempts) s
      if s.reconnectAttempts ≥ s.maxReconnectAttempts then
        stopMonitoring (displayAlert connectionFailedAlert s)
      else s

/-- `startMonitoring()` (`content.js` 127-216): fails fast with one
alert if `typeof io === 'undefined'` or no target is selected;
otherwise zeroes both counters and constructs a fresh Socket.IO client
(`socket = io(BACKEND_URL, ...)`), unconditionally overwriting any
existing `socket` variable.  There is no guard on an in-flight
connection attempt. -/
def startMonitoring (ioAvailable : Bool) (s : PState) : PState :=
  if !ioAvailable then displayAlert ioNotLoadedAlert s
  else if s.targetVideoElement = none then displayAlert noCandidateAlert s
  else
    { s with reconnectAttempts := 0, frameErrorCount := 0,
             socket := some false, socketsCreated := s.socketsCreated + 1 }

/-- `toggleMonitoring()` (`content.js` 119-125), the start/stop button
handler. -/
def toggleMonitoring (ioAvailable : Bool) (s : PState) : PState :=
  if s.isMonitoring then stopMonitoring s else startMonitoring ioAvailable s

/-- `exitCandidateSelectionMode()` (`content.js` 371-376), restricted to
the modelled state: overlays removed, `isSelectingCandidate = false`. -/
def exitCandidateSelectionMode (s : PState) : PState :=
  { s with isSelectingCandidate := false }

/-- `selectCandidate(videoElement)` (`content.js` 378-396): removes the
marking class from the previous target, commits and marks the new one,
shows a confirmation alert, and exits selection mode. -/
def selectCandidate (v : Nat) (s : PState) : PState :=
  let s := { s with targetMarked := false }
  let s := { s with targetVideoElement := some v, targetMarked := true }
  let s := displayAlert candidateSelectedAlert s
  exitCandidateSelectionMode s

/-- The clear-alerts button handler installed by `initExtension`
(`content.js` 468-476): resets the display to a single placeholder
span, touching nothing else. -/
def clearAlerts (s : PState) : PState :=
  if !s.widgetExists then s
  else { s with alerts := [], hasPlaceholder := true }

/-- The externally triggered events of one session run.  `startClick`
carries whether `io` is loaded at click time; `connect` and `tick`
carry the absolute time and the capture-environment sample. -/
inductive Ev where
  | selectCandidate (v : Nat)
  | startClick (ioAvailable : Bool)
  | connect (t : Nat) (env : TickEnv)
  | disconnect (reason : String)
  | connectError
  | tick (t : Nat) (env : TickEnv)
  | proctoringAlert (d : AlertData)
  | clearClick
  deriving Repr, DecidableEq

/-- Whether an event is a press of the start/stop toggle. -/
def Ev.isStartClick : Ev → Bool
  | .startClick _ => true
  | _ => false

/-- One step of the session machine.  A `tick` fires only when the
pending timeout is due at exactly that time (`clearTimeout` having
cancelled it otherwise); the fired timeout is consumed before the
callback runs. -/
def step (e : Ev) (s : PState) : PState :=
  match e with
  | .selectCandidate v => selectCandidate v s
  | .startClick ioAvailable => toggleMonitoring ioAvailable s
  | .connect t env => onConnect t env s
  | .disconnect r => onDisconnect r s
  | .connectError => onConnectError s
  | .tick t env =>
      if s.requestFrameId = some t then
        sendVideoFrame t env { s with requestFrameId := none }
      else s
  | .proctoringAlert d => displayAlert d s
  | .clearClick => clearAlerts s

/-- A run: fold the events over `step`. -/
def run (evs : List Ev) (s : PState) : PState :=
  evs.foldl (fun s e => step e s) s

/-- Configuration loaded once by `loadConfiguration` (`content.js`
496-512), plus whether the injected widget is (still) present in the
host document. -/
structure Config where
  frameInterval : Nat := 1000
  maxReconnectAttempts : Nat := 5
  widget : Bool := true
  deriving Repr, DecidableEq

/-- The state right after injection and initialization: nothing
monitoring, no socket, no pending timeout, no target, counters zero,
and the alert display holding only the "Loading..." placeholder. -/
def initState (c : Config) : PState :=
  { isMonitoring := false, socket := none, requestFrameId := none,
    targetVideoElement := none, isSelectingCandidate := false,
    reconnectAttempts := 0, frameErrorCount := 0,
    alerts := [], hasPlaceholder := true, widgetExists := c.widget,
    blurListenerAttached := false, targetMarked := false,
    frameIntervalMs := c.frameInterval,
    maxReconnectAttempts := c.maxReconnectAttempts,
    socketsCreated := 0, sentFrames := [], noticesShown := [],
    enteredMonitoringAt := none }

/-- A fully favourable capture environment. -/
def envOK : TickEnv :=
  { targetReady := true, targetInDom := true, encodeOk := true }

end AIProctor

namespace AIProctor

/-! ## Invariant predicates -/

/-- All session resources are released: not monitoring, no socket, no
pending capture timeout, no target reference or marking, no blur
listener, both counters zero. -/
def Released (s : PState) : Prop :=
  s.isMonitoring = false ∧ s.socket = none ∧ s.requestFrameId = none ∧
  s.targetVideoElement = none ∧ s.targetMarked = false ∧
  s.blurListenerAttached = false ∧ s.reconnectAttempts = 0 ∧ s.frameErrorCount = 0

/-- The capture/transport machinery is inert: no socket (so no transport
handler can fire), no pending capture timeout, not monitoring. -/
def Dormant (s : PState) : Prop :=
  s.isMonitoring = false ∧ s.socket = none ∧ s.requestFrameId = none

/-- The structural invariant relating the monitoring flag, the socket
and the target: monitoring implies a socket object exists, and a socket
object implies a selected target. -/
def MonitorInv (s : PState) : Prop :=
  (s.isMonitoring = true → s.socket ≠ none) ∧
  (s.socket ≠ none → s.targetVideoElement ≠ none)

/-! ## Concrete states used by witnesses and counterexamples -/

def demoInit : PState := initState {}

/-- Target selected and start clicked: a connection attempt is pending
(socket exists, not yet connected, not yet monitoring). -/
def demoStart : PState := run [Ev.selectCandidate 1, Ev.startClick true] demoInit

/-- A live monitoring session: connected at time 100. -/
def demoMon : PState :=
  run [Ev.selectCandidate 1, Ev.startClick true, Ev.connect 100 envOK] demoInit

/-- Four consecutive connection errors under the default bound of 5. -/
def demoErr4 : PState :=
  run [Ev.selectCandidate 1, Ev.startClick true, Ev.connectError, Ev.connectError,
       Ev.connectError, Ev.connectError] demoInit

/-- A tick environment in which the target has left the document while
another qualifying video is available on the page. -/
def envLostR : TickEnv :=
  { targetReady := true, targetInDom := false, encodeOk := true, replacementAvailable := true }

/-! ## Alert sink operations (for the history claims) -/

/-- The two operations the page can perform on the alert sink:
`record` is `displayAlert` (an inbound `proctoring_alert` or an
internal notice) and `clear` is the clear-alerts button handler. -/
inductive SinkOp where
  | record (a : AlertData)
  | clear
  deriving Repr, DecidableEq

def applySinkOp (op : SinkOp) (s : PState) : PState :=
  match op with
  | .record a => displayAlert a s
  | .clear => clearAlerts s

def applySinkOps (ops : List SinkOp) (s : PState) : PState :=
  ops.foldl (fun s op => applySinkOp op s) s

end AIProctor

namespace AIProctor

/-! ## Field-preservation lemmas for the handlers -/

@[simp] theorem displayAlert_isMonitoring (a : AlertData) (s : PState) :
    (displayAlert a s).isMonitoring = s.isMonitoring := by
  unfold displayAlert; split <;> rfl

@[simp] theorem displayAlert_socket (a : AlertData) (s : PState) :
    (displayAlert a s).socket = s.socket := by
  unfold displayAlert; split <;> rfl

@[simp] theorem displayAlert_requestFrameId (a : AlertData) (s : PState) :
    (displayAlert a s).requestFrameId = s.requestFrameId := by
  unfold displayAlert; split <;> rfl

@[simp] theorem displayAlert_targetVideoElement (a : AlertData) (s : PState) :
    (displayAlert a s).targetVideoElement = s.targetVideoElement := by
  unfold displayAlert; split <;> rfl

@[simp] theorem displayAlert_targetMarked (a : AlertData) (s : PState) :
    (displayAlert a s).targetMarked = s.targetMarked := by
  unfold displayAlert; split <;> rfl

@[simp] theorem displayAlert_blurListenerAttached (a : AlertData) (s : PState) :
    (displayAlert a s).blurListenerAttached = s.blurListenerAttached := by
  unfold displayAlert; split <;> rfl

@[simp] theorem displayAlert_reconnectAttempts (a : AlertData) (s : PState) :
    (displayAlert a s).reconnectAttempts = s.reconnectAttempts := by
  unfold displayAlert; split <;> rfl

@[simp] theorem displayAlert_frameErrorCount (a : AlertData) (s : PState) :
    (displayAlert a s).frameErrorCount = s.frameErrorCount := by
  unfold displayAlert; split <;> rfl

@[simp] theorem displayAlert_widgetExists (a : AlertData) (s : PState) :
    (displayAlert a s).widgetExists = s.widgetExists := by
  unfold displayAlert; split <;> rfl

@[simp] theorem displayAlert_maxReconnect (a : AlertData) (s : PState) :
    (displayAlert a s).maxReconnectAttempts = s.maxReconnectAttempts := by
  unfold displayAlert; split <;> rfl

@[simp] theorem displayAlert_frameIntervalMs (a : AlertData) (s : PState) :
    (displayAlert a s).frameIntervalMs = s.frameIntervalMs := by
  unfold displayAlert; split <;> rfl

@[simp] theorem displayAlert_socketsCreated (a : AlertData) (s : PState) :
    (displayAlert a s).socketsCreated = s.socketsCreated := by
  unfold displayAlert; split <;> rfl

@[simp] theorem displayAlert_sentFrames (a : AlertData) (s : PState) :
    (displayAlert a s).sentFrames = s.sentFrames := by
  unfold displayAlert; split <;> rfl

@[simp] theorem displayAlert_enteredMonitoringAt (a : AlertData) (s : PState) :
    (displayAlert a s).enteredMonitoringAt = s.enteredMonitoringAt := by
  unfold displayAlert; split <;> rfl

theorem displayAlert_noticesShown (a : AlertData) (s : PState) :
    (displayAlert a s).noticesShown =
      if s.widgetExists then a.alert :: s.noticesShown else s.noticesShown := by
  unfold displayAlert
  rcases h : s.widgetExists <;> simp [h]

@[simp] theorem stopMonitoring_isMonitoring (s : PState) :
    (stopMonitoring s).isMonitoring = false := by
  rcases h : s.widgetExists <;> simp [stopMonitoring, h]

@[simp] theorem stopMonitoring_socket (s : PState) :
    (stopMonitoring s).socket = none := by
  rcases h : s.widgetExists <;> simp [stopMonitoring, h]

@[simp] theorem stopMonitoring_requestFrameId (s : PState) :
    (stopMonitoring s).requestFrameId = none := by
  rcases h : s.widgetExists <;> simp [stopMonitoring, h]

@[simp] theorem stopMonitoring_targetVideoElement (s : PState) :
    (stopMonitoring s).targetVideoElement = none := by
  rcases h : s.widgetExists <;> simp [stopMonitoring, h]

@[simp] theorem stopMonitoring_targetMarked (s : PState) :
    (stopMonitoring s).targetMarked = false := by
  rcases h : s.widgetExists <;> simp [stopMonitoring, h]

@[simp] theorem stopMonitoring_blurListenerAttached (s : PState) :
    (stopMonitoring s).blurListenerAttached = false := by
  rcases h : s.widgetExists <;> simp [stopMonitoring, h]

@[simp] theorem stopMonitoring_reconnectAttempts (s : PState) :
    (stopMonitoring s).reconnectAttempts = 0 := by
  rcases h : s.widgetExists <;> simp [stopMonitoring, h]

@[simp] theorem stopMonitoring_frameErrorCount (s : PState) :
    (stopMonitoring s).frameErrorCount = 0 := by
  rcases h : s.widgetExists <;> simp [stopMonitoring, h]

@[simp] theorem stopMonitoring_widgetExists (s : PState) :
    (stopMonitoring s).widgetExists = s.widgetExists := by
  rcases h : s.widgetExists <;> simp [stopMonitoring, h]

@[simp] theorem stopMonitoring_maxReconnect (s : PState) :
    (stopMonitoring s).maxReconnectAttempts = s.maxReconnectAttempts := by
  rcases h : s.widgetExists <;> simp [stopMonitoring, h]

@[simp] theorem stopMonitoring_sentFrames (s : PState) :
    (stopMonitoring s).sentFrames = s.sentFrames := by
  rcases h : s.widgetExists <;> simp [stopMonitoring, h]

@[simp] theorem stopMonitoring_socketsCreated (s : PState) :
    (stopMonitoring s).socketsCreated = s.socketsCreated := by
  rcases h : s.widgetExists <;> simp [stopMonitoring, h]

theorem stopMonitoring_noticesShown (s : PState) :
    (stopMonitoring s).noticesShown =
      if s.widgetExists then sessionEndedAlert.alert :: s.noticesShown else s.noticesShown := by
  unfold stopMonitoring
  rcases h : s.widgetExists <;> simp [h, displayAlert_noticesShown]

end AIProctor

namespace AIProctor

/-! ## sendVideoFrame lemmas -/

theorem sendVideoFrame_widgetExists (t : Nat) (env : TickEnv) (s : PState) :
    (sendVideoFrame t env s).widgetExists = s.widgetExists := by
  unfold sendVideoFrame
  by_cases h1 : s.isMonitoring <;>
  by_cases h2 : s.targetVideoElement = none <;>
  by_cases h3 : env.targetReady <;>
  by_cases h4 : env.targetInDom <;>
  by_cases h5 : env.encodeOk <;>
  by_cases h6 : s.socket = some true <;>
  by_cases h7 : maxFrameErrors ≤ s.frameErrorCount + 1 <;>
  simp [h1, h2, h3, h4, h5, h6, h7]

theorem sendVideoFrame_maxReconnect (t : Nat) (env : TickEnv) (s : PState) :
    (sendVideoFrame t env s).maxReconnectAttempts = s.maxReconnectAttempts := by
  unfold sendVideoFrame
  by_cases h1 : s.isMonitoring <;>
  by_cases h2 : s.targetVideoElement = none <;>
  by_cases h3 : env.targetReady <;>
  by_cases h4 : env.targetInDom <;>
  by_cases h5 : env.encodeOk <;>
  by_cases h6 : s.socket = some true <;>
  by_cases h7 : maxFrameErrors ≤ s.frameErrorCount + 1 <;>
  simp [h1, h2, h3, h4, h5, h6, h7]

theorem sendVideoFrame_socketsCreated (t : Nat) (env : TickEnv) (s : PState) :
    (sendVideoFrame t env s).socketsCreated = s.socketsCreated := by
  unfold sendVideoFrame
  by_cases h1 : s.isMonitoring <;>
  by_cases h2 : s.targetVideoElement = none <;>
  by_cases h3 : env.targetReady <;>
  by_cases h4 : env.targetInDom <;>
  by_cases h5 : env.encodeOk <;>
  by_cases h6 : s.socket = some true <;>
  by_cases h7 : maxFrameErrors ≤ s.frameErrorCount + 1 <;>
  simp [h1, h2, h3, h4, h5, h6, h7]

theorem sendVideoFrame_reconnectAttempts (t : Nat) (env : TickEnv) (s : PState) :
    (sendVideoFrame t env s).reconnectAttempts = s.reconnectAttempts ∨
      (sendVideoFrame t env s).reconnectAttempts = 0 := by
  unfold sendVideoFrame
  by_cases h1 : s.isMonitoring <;>
  by_cases h2 : s.targetVideoElement = none <;>
  by_cases h3 : env.targetReady <;>
  by_cases h4 : env.targetInDom <;>
  by_cases h5 : env.encodeOk <;>
  by_cases h6 : s.socket = some true <;>
  by_cases h7 : maxFrameErrors ≤ s.frameErrorCount + 1 <;>
  simp [h1, h2, h3, h4, h5, h6, h7]

theorem sendVideoFrame_frameBound (t : Nat) (env : TickEnv) (s : PState)
    (h : s.frameErrorCount < maxFrameErrors) :
    (sendVideoFrame t env s).frameErrorCount < maxFrameErrors := by
  unfold sendVideoFrame
  by_cases h1 : s.isMonitoring <;>
  by_cases h2 : s.targetVideoElement = none <;>
  by_cases h3 : env.targetReady <;>
  by_cases h4 : env.targetInDom <;>
  by_cases h5 : env.encodeOk <;>
  by_cases h6 : s.socket = some true <;>
  simp [h1, h2, h3, h4, h5, h6, maxFrameErrors] <;>
  (try exact h) <;>
  split <;>
  simp [maxFrameErrors] <;>
  omega

theorem sendVideoFrame_monitorInv (t : Nat) (env : TickEnv) (s : PState)
    (h : MonitorInv s) : MonitorInv (sendVideoFrame t env s) := by
  obtain ⟨ha, hb⟩ := h
  unfold MonitorInv sendVideoFrame
  by_cases h1 : s.isMonitoring <;>
  by_cases h2 : s.targetVideoElement = none <;>
  by_cases h3 : env.targetReady <;>
  by_cases h4 : env.targetInDom <;>
  by_cases h5 : env.encodeOk <;>
  by_cases h6 : s.socket = some true <;>
  by_cases h7 : maxFrameErrors ≤ s.frameErrorCount + 1 <;>
  simp [h1, h2, h3, h4, h5, h6, h7] <;>
  first
  | tauto
  | simp_all

theorem sendVideoFrame_not_monitoring (t : Nat) (env : TickEnv) (s : PState)
    (h : s.isMonitoring = false) : sendVideoFrame t env s = s := by
  unfold sendVideoFrame
  simp [h]

end AIProctor

namespace AIProctor

/-! ## Run lemmas -/

@[simp] theorem run_nil (s : PState) : run [] s = s := rfl

@[simp] theorem run_cons (e : Ev) (evs : List Ev) (s : PState) :
    run (e :: evs) s = run evs (step e s) := rfl

/-- Induction principle: a predicate preserved by every step holds of
every run. -/
theorem run_inv (P : PState → Prop) (h : ∀ e s, P s → P (step e s)) :
    ∀ (evs : List Ev) (s : PState), P s → P (run evs s) := by
  intro evs
  induction evs with
  | nil => intro s hs; simpa using hs
  | cons e evs ih =>
      intro s hs
      rw [run_cons]
      exact ih _ (h e s hs)

/-! ## Step preservation lemmas -/

theorem step_widgetExists (e : Ev) (s : PState) :
    (step e s).widgetExists = s.widgetExists := by
  cases e with
  | selectCandidate v => simp [step, selectCandidate, exitCandidateSelectionMode]
  | startClick io =>
      by_cases hm : s.isMonitoring <;>
      by_cases hio : io <;>
      by_cases ht : s.targetVideoElement = none <;>
      simp [step, toggleMonitoring, startMonitoring, hm, hio, ht]
  | connect t env =>
      rcases hs : s.socket with _ | c <;>
      simp [step, onConnect, hs, sendVideoFrame_widgetExists]
  | disconnect r =>
      rcases hs : s.socket with _ | c <;>
      by_cases hm : s.isMonitoring <;>
      by_cases hr : (r = "io server disconnect" || r = "io client disconnect") = true <;>
      simp [step, onDisconnect, hs, hm, hr]
  | connectError =>
      rcases hs : s.socket with _ | c <;>
      by_cases hw : s.widgetExists <;>
      by_cases hb : s.maxReconnectAttempts ≤ s.reconnectAttempts + 1 <;>
      simp [step, onConnectError, hs, hw, hb]
  | tick t env =>
      by_cases hq : s.requestFrameId = some t <;>
      simp [step, hq, sendVideoFrame_widgetExists]
  | proctoringAlert d => simp [step]
  | clearClick =>
      by_cases hw : s.widgetExists <;> simp [step, clearAlerts, hw]

end AIProctor

namespace AIProctor

theorem step_monitorInv (e : Ev) (s : PState) (h : MonitorInv s) :
    MonitorInv (step e s) := by
  obtain ⟨ha, hb⟩ := h
  cases e with
  | selectCandidate v =>
      constructor
      · simpa [step, selectCandidate, exitCandidateSelectionMode] using ha
      · simp [step, selectCandidate, exitCandidateSelectionMode]
  | startClick io =>
      by_cases hm : s.isMonitoring
      · constructor <;> simp [step, toggleMonitoring, hm]
      · by_cases hio : io
        · by_cases ht : s.targetVideoElement = none
          · constructor
            · simp [step, toggleMonitoring, startMonitoring, hm, hio, ht]
            · simp [step, toggleMonitoring, startMonitoring, hm, hio, ht]
              by_contra hx
              exact (hb hx) ht
          · constructor
            · simp [step, toggleMonitoring, startMonitoring, hm, hio, ht]
            · simp [step, toggleMonitoring, startMonitoring, hm, hio, ht]
        · constructor
          · simp [step, toggleMonitoring, startMonitoring, hm, hio]
          · simpa [step, toggleMonitoring, startMonitoring, hm, hio] using hb
  | connect t env =>
      rcases hs : s.socket with _ | c
      · simp only [step, onConnect, hs]
        exact ⟨ha, hb⟩
      · have htgt : s.targetVideoElement ≠ none := hb (by simp [hs])
        simp only [step, onConnect, hs]
        apply sendVideoFrame_monitorInv
        constructor
        · simp
        · simpa using htgt
  | disconnect r =>
      rcases hs : s.socket with _ | c
      · simp only [step, onDisconnect, hs]
        exact ⟨ha, hb⟩
      · have htgt : s.targetVideoElement ≠ none := hb (by simp [hs])
        by_cases hm : s.isMonitoring <;>
        by_cases hr : (r = "io server disconnect" || r = "io client disconnect") = true <;>
        constructor <;>
        simp [step, onDisconnect, hs, hm, hr, htgt]
  | connectError =>
      rcases hs : s.socket with _ | c
      · simp only [step, onConnectError, hs]
        exact ⟨ha, hb⟩
      · by_cases hw : s.widgetExists
        · by_cases hbnd : s.maxReconnectAttempts ≤ s.reconnectAttempts + 1
          · constructor <;> simp [step, onConnectError, hs, hw, hbnd]
          · constructor
            · simp [step, onConnectError, hs, hw, hbnd]
            · simpa [step, onConnectError, hs, hw, hbnd] using hb
        · simp only [step, onConnectError, hs, hw]
          constructor
          · simpa [hw] using ha
          · simpa [hw] using hb
  | tick t env =>
      by_cases hq : s.requestFrameId = some t
      · simp only [step, hq, if_pos]
        apply sendVideoFrame_monitorInv
        constructor
        · simpa using ha
        · simpa using hb
      · simp only [step, hq, if_neg]
        exact ⟨ha, hb⟩
  | proctoringAlert d =>
      constructor
      · simpa [step] using ha
      · simpa [step] using hb
  | clearClick =>
      by_cases hw : s.widgetExists <;>
      · constructor
        · simpa [step, clearAlerts, hw] using ha
        · simpa [step, clearAlerts, hw] using hb

end AIProctor

namespace AIProctor

theorem step_frameBound (e : Ev) (s : PState)
    (h : s.frameErrorCount < maxFrameErrors) :
    (step e s).frameErrorCount < maxFrameErrors := by
  cases e with
  | selectCandidate v =>
      simpa [step, selectCandidate, exitCandidateSelectionMode] using h
  | startClick io =>
      by_cases hm : s.isMonitoring <;>
      by_cases hio : io <;>
      by_cases ht : s.targetVideoElement = none <;>
      simp [step, toggleMonitoring, startMonitoring, hm, hio, ht, maxFrameErrors] <;>
      simpa [maxFrameErrors] using h
  | connect t env =>
      rcases hs : s.socket with _ | c
      · simpa [step, onConnect, hs] using h
      · simp only [step, onConnect, hs]
        apply sendVideoFrame_frameBound
        simp [maxFrameErrors]
  | disconnect r =>
      rcases hs : s.socket with _ | c
      · simpa [step, onDisconnect, hs] using h
      · by_cases hm : s.isMonitoring <;>
        by_cases hr : (r = "io server disconnect" || r = "io client disconnect") = true <;>
        simp [step, onDisconnect, hs, hm, hr, maxFrameErrors] <;>
        simpa [maxFrameErrors] using h
  | connectError =>
      rcases hs : s.socket with _ | c
      · simpa [step, onConnectError, hs] using h
      · by_cases hw : s.widgetExists <;>
        by_cases hbnd : s.maxReconnectAttempts ≤ s.reconnectAttempts + 1 <;>
        simp [step, onConnectError, hs, hw, hbnd, maxFrameErrors] <;>
        simpa [maxFrameErrors] using h
  | tick t env =>
      by_cases hq : s.requestFrameId = some t
      · simp only [step, hq, if_pos]
        apply sendVideoFrame_frameBound
        simpa using h
      · simpa [step, hq] using h
  | proctoringAlert d => simpa [step] using h
  | clearClick =>
      by_cases hw : s.widgetExists <;> simpa [step, clearAlerts, hw] using h

theorem step_reconnectBound (e : Ev) (s : PState)
    (h : s.reconnectAttempts ≤ s.maxReconnectAttempts) :
    (step e s).reconnectAttempts ≤ (step e s).maxReconnectAttempts := by
  cases e with
  | selectCandidate v =>
      simpa [step, selectCandidate, exitCandidateSelectionMode] using h
  | startClick io =>
      by_cases hm : s.isMonitoring <;>
      by_cases hio : io <;>
      by_cases ht : s.targetVideoElement = none <;>
      simp [step, toggleMonitoring, startMonitoring, hm, hio, ht] <;>
      simpa using h
  | connect t env =>
      rcases hs : s.socket with _ | c
      · simpa [step, onConnect, hs] using h
      · simp only [step, onConnect, hs]
        rw [sendVideoFrame_maxReconnect]
        rcases sendVideoFrame_reconnectAttempts t env _ with hc | hc <;> rw [hc] <;> simp
  | disconnect r =>
      rcases hs : s.socket with _ | c
      · simpa [step, onDisconnect, hs] using h
      · by_cases hm : s.isMonitoring <;>
        by_cases hr : (r = "io server disconnect" || r = "io client disconnect") = true <;>
        simp [step, onDisconnect, hs, hm, hr] <;>
        simpa using h
  | connectError =>
      rcases hs : s.socket with _ | c
      · simpa [step, onConnectError, hs] using h
      · by_cases hw : s.widgetExists <;>
        by_cases hbnd : s.maxReconnectAttempts ≤ s.reconnectAttempts + 1 <;>
        simp [step, onConnectError, hs, hw, hbnd] <;>
        first
        | simpa using h
        | omega
  | tick t env =>
      by_cases hq : s.requestFrameId = some t
      · simp only [step, hq, if_pos]
        rw [sendVideoFrame_maxReconnect]
        rcases sendVideoFrame_reconnectAttempts t env _ with hc | hc <;> rw [hc] <;> simpa using h
      · simpa [step, hq] using h
  | proctoringAlert d => simpa [step] using h
  | clearClick =>
      by_cases hw : s.widgetExists <;> simpa [step, clearAlerts, hw] using h

theorem step_noWidget (e : Ev) (s : PState)
    (h : s.widgetExists = false ∧ s.reconnectAttempts = 0) :
    (step e s).widgetExists = false ∧ (step e s).reconnectAttempts = 0 := by
  obtain ⟨hw, h0⟩ := h
  refine ⟨(step_widgetExists e s).trans hw, ?_⟩
  cases e with
  | selectCandidate v =>
      simpa [step, selectCandidate, exitCandidateSelectionMode] using h0
  | startClick io =>
      by_cases hm : s.isMonitoring <;>
      by_cases hio : io <;>
      by_cases ht : s.targetVideoElement = none <;>
      simp [step, toggleMonitoring, startMonitoring, hm, hio, ht] <;>
      simpa using h0
  | connect t env =>
      rcases hs : s.socket with _ | c
      · simpa [step, onConnect, hs] using h0
      · simp only [step, onConnect, hs]
        rcases sendVideoFrame_reconnectAttempts t env _ with hc | hc <;> rw [hc] <;> simp
  | disconnect r =>
      rcases hs : s.socket with _ | c
      · simpa [step, onDisconnect, hs] using h0
      · by_cases hm : s.isMonitoring <;>
        by_cases hr : (r = "io server disconnect" || r = "io client disconnect") = true <;>
        simp [step, onDisconnect, hs, hm, hr] <;>
        simpa using h0
  | connectError =>
      rcases hs : s.socket with _ | c
      · simpa [step, onConnectError, hs] using h0
      · simpa [step, onConnectError, hs, hw] using h0
  | tick t env =>
      by_cases hq : s.requestFrameId = some t
      · simp only [step, hq, if_pos]
        rcases sendVideoFrame_reconnectAttempts t env _ with hc | hc <;> rw [hc] <;> simpa using h0
      · simpa [step, hq] using h0
  | proctoringAlert d => simpa [step] using h0
  | clearClick =>
      by_cases hwc : s.widgetExists <;> simpa [step, clearAlerts, hwc] using h0

theorem step_dormant (e : Ev) (s : PState) (he : e.isStartClick = false)
    (h : Dormant s) : Dormant (step e s) ∧ (step e s).sentFrames = s.sentFrames := by
  obtain ⟨h1, h2, h3⟩ := h
  cases e with
  | selectCandidate v =>
      refine ⟨⟨?_, ?_, ?_⟩, ?_⟩ <;>
      simp [step, selectCandidate, exitCandidateSelectionMode, h1, h2, h3]
  | startClick io => simp [Ev.isStartClick] at he
  | connect t env =>
      have hred : step (Ev.connect t env) s = s := by
        simp only [step, onConnect, h2]
      rw [hred]
      exact ⟨⟨h1, h2, h3⟩, rfl⟩
  | disconnect r =>
      have hred : step (Ev.disconnect r) s = s := by
        simp only [step, onDisconnect, h2]
      rw [hred]
      exact ⟨⟨h1, h2, h3⟩, rfl⟩
  | connectError =>
      have hred : step Ev.connectError s = s := by
        simp only [step, onConnectError, h2]
      rw [hred]
      exact ⟨⟨h1, h2, h3⟩, rfl⟩
  | tick t env =>
      have hred : step (Ev.tick t env) s = s := by
        simp [step, h3]
      rw [hred]
      exact ⟨⟨h1, h2, h3⟩, rfl⟩
  | proctoringAlert d =>
      refine ⟨⟨?_, ?_, ?_⟩, ?_⟩ <;> simp [step, h1, h2, h3]
  | clearClick =>
      by_cases hw : s.widgetExists <;>
      · refine ⟨⟨?_, ?_, ?_⟩, ?_⟩ <;> simp [step, clearAlerts, hw, h1, h2, h3]

/-- Dormancy persists over any run free of start clicks, and no frame
is ever sent during such a run. -/
theorem run_dormant (evs : List Ev) (s : PState)
    (he : ∀ e ∈ evs, e.isStartClick = false) (h : Dormant s) :
    Dormant (run evs s) ∧ (run evs s).sentFrames = s.sentFrames := by
  induction evs generalizing s with
  | nil => exact ⟨h, rfl⟩
  | cons e evs ih =>
      have hstep := step_dormant e s (he e (by simp)) h
      have hrest := ih (step e s) (fun e' he' => he e' (by simp [he'])) hstep.1
      rw [run_cons]
      exact ⟨hrest.1, hrest.2.trans hstep.2⟩

end AIProctor

namespace AIProctor

/-! ## Claim C1 -/

/-- C1: after `stopMonitoring` returns, the capture timeout is
cancelled and monitoring is off, and along any continuation that does
not press the start/stop toggle again no capture tick fires: no frame
is ever submitted and no capture timeout ever becomes pending. -/
theorem c1_no_capture_tick_after_stop (s : PState) (evs : List Ev)
    (he : ∀ e ∈ evs, e.isStartClick = false) :
    (stopMonitoring s).requestFrameId = none ∧
    (stopMonitoring s).isMonitoring = false ∧
    (run evs (stopMonitoring s)).sentFrames = (stopMonitoring s).sentFrames ∧
    (run evs (stopMonitoring s)).requestFrameId = none := by
  have hd : Dormant (stopMonitoring s) := ⟨by simp, by simp, by simp⟩
  have hrun := run_dormant evs (stopMonitoring s) he hd
  exact ⟨by simp, by simp, hrun.2, hrun.1.2.2⟩

/-- Witness for C1 at a concrete input: stopping the live demo session
and then delivering a due tick, a connection error and a connect event
sends no further frame. -/
theorem c1_no_capture_tick_after_stop_witness :
    (run [Ev.tick 1100 envOK, Ev.connectError, Ev.connect 2000 envOK]
        (stopMonitoring demoMon)).sentFrames = (stopMonitoring demoMon).sentFrames := by
  exact (c1_no_capture_tick_after_stop demoMon
    [Ev.tick 1100 envOK, Ev.connectError, Ev.connect 2000 envOK] (by decide)).2.2.1

/-! ## Claim C2 -/

/-- C2 as stated is refuted: with the default configuration
(`frameIntervalMs = 1000`), after target selection, start, and a
successful connect at time 100, the session enters `Monitoring` at time
100 and a frame is captured and submitted at that same time — not
`frameIntervalMs` later. -/
theorem c2_first_tick_waits_counterexample :
    (run [Ev.selectCandidate 1, Ev.startClick true, Ev.connect 100 envOK]
        (initState {})).enteredMonitoringAt = some 100 ∧
    (run [Ev.selectCandidate 1, Ev.startClick true, Ev.connect 100 envOK]
        (initState {})).sentFrames = [100] ∧
    (run [Ev.selectCandidate 1, Ev.startClick true, Ev.connect 100 envOK]
        (initState {})).frameIntervalMs = 1000 ∧
    (100 : Nat) < 100 + 1000 := by
  refine ⟨rfl, rfl, rfl, by norm_num⟩

/-- C2 (corrected): the `connect` handler runs the first capture tick
synchronously — on a state with a socket and a selected target, with
the video ready and attached and the encode succeeding, a frame is
submitted at the connect time `t` itself (zero delay after entering
`Monitoring`), and the next tick is scheduled exactly `frameIntervalMs`
after `t`. -/
theorem c2_first_tick_immediate (s : PState) (t v : Nat) (env : TickEnv) (c : Bool)
    (hs : s.socket = some c) (ht : s.targetVideoElement = some v)
    (h3 : env.targetReady = true) (h4 : env.targetInDom = true)
    (h5 : env.encodeOk = true) :
    (onConnect t env s).enteredMonitoringAt = some t ∧
    (onConnect t env s).isMonitoring = true ∧
    (onConnect t env s).sentFrames = t :: s.sentFrames ∧
    (onConnect t env s).requestFrameId = some (t + s.frameIntervalMs) := by
  simp only [onConnect, hs]
  unfold sendVideoFrame
  simp [ht, h3, h4, h5]

/-- Witness for the corrected C2 on the pending-connection demo state. -/
theorem c2_first_tick_immediate_witness :
    (onConnect 100 envOK demoStart).sentFrames = 100 :: demoStart.sentFrames ∧
    (onConnect 100 envOK demoStart).requestFrameId = some (100 + demoStart.frameIntervalMs) := by
  have h := c2_first_tick_immediate demoStart 100 1 envOK false rfl rfl rfl rfl rfl
  exact ⟨h.2.2.1, h.2.2.2⟩

/-! ## Claim C3 -/

/-- C3 as stated is refuted: after one start (connection pending, one
socket created, not yet monitoring), a second start click is not a
no-op — it constructs a second Socket.IO client. -/
theorem c3_start_reentrancy_counterexample :
    (run [Ev.selectCandidate 1, Ev.startClick true] (initState {})).isMonitoring = false ∧
    (run [Ev.selectCandidate 1, Ev.startClick true] (initState {})).socketsCreated = 1 ∧
    (run [Ev.selectCandidate 1, Ev.startClick true, Ev.startClick true]
        (initState {})).socketsCreated = 2 := by
  exact ⟨rfl, rfl, rfl⟩

/-- C3 (corrected): `startMonitoring` fails fast with a single notice
and no socket when the transport library is unavailable or no target is
selected, and the button entry point toggles to `stopMonitoring` when
already monitoring; but start during a pending connection attempt is
not prevented — whenever a target is selected and the library is
loaded, it unconditionally constructs a fresh socket, even if one
already exists. -/
theorem c3_start_fail_fast (s : PState) (io : Bool) (v : Nat) :
    (startMonitoring false s = displayAlert ioNotLoadedAlert s) ∧
    (s.targetVideoElement = none → startMonitoring true s = displayAlert noCandidateAlert s) ∧
    (s.isMonitoring = true → toggleMonitoring io s = stopMonitoring s) ∧
    (s.targetVideoElement = some v →
      (startMonitoring true s).socketsCreated = s.socketsCreated + 1 ∧
      (startMonitoring true s).socket = some false) := by
  refine ⟨?_, ?_, ?_, ?_⟩
  · simp [startMonitoring]
  · intro ht; simp [startMonitoring, ht]
  · intro hm; simp [toggleMonitoring, hm]
  · intro ht; constructor <;> simp [startMonitoring, ht]

/-- Witness for the corrected C3: a second start on the
pending-connection demo state creates one more socket. -/
theorem c3_start_fail_fast_witness :
    (startMonitoring true demoStart).socketsCreated = demoStart.socketsCreated + 1 := by
  exact ((c3_start_fail_fast demoStart true 1).2.2.2 rfl).1

/-! ## Claim C6 -/

/-- C6: `stopMonitoring` always releases every session resource —
monitoring off, socket disconnected and nulled, capture timeout
cancelled, blur listener removed, target reference and its visual
marking cleared, both counters zero — in every state, whether or not
the widget is attached, and it is idempotent on those resources. -/
theorem c6_stop_idempotent_releases (s : PState) :
    Released (stopMonitoring s) ∧ Released (stopMonitoring (stopMonitoring s)) := by
  constructor <;> simp [Released]

/-! ## Claim C7 -/

/-- C7 as stated is refuted: after a successful connect, a transient
network disconnect (reason "transport close", which is neither terminal
reason) leaves the session in `Monitoring` while the transport
connection is closed. -/
theorem c7_monitoring_invariant_counterexample :
    (run [Ev.selectCandidate 1, Ev.startClick true, Ev.connect 100 envOK,
          Ev.disconnect "transport close"] (initState {})).isMonitoring = true ∧
    (run [Ev.selectCandidate 1, Ev.startClick true, Ev.connect 100 envOK,
          Ev.disconnect "transport close"] (initState {})).socket = some false := by
  exact ⟨rfl, rfl⟩

/-- C7 (corrected): in every reachable state, `Monitoring` implies a
non-null selected target and a non-null socket object; the connection
itself need not be open — a disconnect with any non-terminal reason
leaves the session in `Monitoring` with the connection closed. -/
theorem c7_monitoring_invariant (cfg : Config) (evs : List Ev)
    (s : PState) (r : String) (c : Bool)
    (hm2 : s.isMonitoring = true) (hs : s.socket = some c)
    (hr1 : r ≠ "io server disconnect") (hr2 : r ≠ "io client disconnect") :
    ((run evs (initState cfg)).isMonitoring = true →
       (run evs (initState cfg)).targetVideoElement ≠ none ∧
       (run evs (initState cfg)).socket ≠ none) ∧
    ((onDisconnect r s).isMonitoring = true ∧ (onDisconnect r s).socket = some false) := by
  constructor
  · have hinv := run_inv MonitorInv step_monitorInv evs (initState cfg)
      ⟨by simp [initState], by simp [initState]⟩
    intro hmon
    have h1 := hinv.1 hmon
    exact ⟨hinv.2 h1, h1⟩
  · unfold onDisconnect
    simp [hs, hm2, hr1, hr2]

/-- Witness for the corrected C7: a transient disconnect on the live
demo session keeps `Monitoring` on. -/
theorem c7_monitoring_invariant_witness :
    (onDisconnect "transport close" demoMon).isMonitoring = true ∧
    (onDisconnect "transport close" demoMon).socket = some false := by
  exact (c7_monitoring_invariant {} [] demoMon "transport close" true rfl rfl
    (by decide) (by decide)).2

/-! ## Claim C10 -/

/-- C10: with the proctor widget absent from the document, the
`connect_error` handler returns before incrementing the counter or
showing any notice — the state is unchanged — and along any run started
without the widget the reconnect counter stays 0, so the attempt-bound
escalation never fires and never stops the session. -/
theorem c10_connect_error_no_widget (s : PState) (cfg : Config) (evs : List Ev)
    (hw : s.widgetExists = false) (hcfg : cfg.widget = false) :
    onConnectError s = s ∧
    (run evs (initState cfg)).reconnectAttempts = 0 ∧
    (run evs (initState cfg)).widgetExists = false := by
  have hrun := run_inv (fun st => st.widgetExists = false ∧ st.reconnectAttempts = 0)
    step_noWidget evs (initState cfg) ⟨by simp [initState, hcfg], by simp [initState]⟩
  refine ⟨?_, hrun.2, hrun.1⟩
  rcases hs : s.socket with _ | c <;> simp [onConnectError, hs, hw]

/-- Witness for C10: a widget-less injection absorbs a connection error
unchanged, and a widget-less run through select, start and a connection
error leaves the counter at zero. -/
theorem c10_connect_error_no_widget_witness :
    onConnectError (initState { widget := false }) = initState { widget := false } ∧
    (run [Ev.selectCandidate 1, Ev.startClick true, Ev.connectError]
        (initState { widget := false })).reconnectAttempts = 0 := by
  have h := c10_connect_error_no_widget (initState { widget := false }) { widget := false }
    [Ev.selectCandidate 1, Ev.startClick true, Ev.connectError] rfl rfl
  exact ⟨h.1, h.2.1⟩

end AIProctor

namespace AIProctor

@[simp] theorem applySinkOps_nil (s : PState) : applySinkOps [] s = s := rfl

@[simp] theorem applySinkOps_cons (op : SinkOp) (ops : List SinkOp) (s : PState) :
    applySinkOps (op :: ops) s = applySinkOps ops (applySinkOp op s) := rfl

theorem displayAlert_length_le (a : AlertData) (s : PState)
    (h : s.alerts.length ≤ maxAlerts) :
    (displayAlert a s).alerts.length ≤ maxAlerts := by
  unfold displayAlert
  by_cases hw : s.widgetExists
  · by_cases hp : s.hasPlaceholder <;> simp [hw, hp] <;> split <;>
      simp_all [maxAlerts] <;> omega
  · simpa [hw] using h

theorem applySinkOps_length_le (ops : List SinkOp) (s : PState)
    (h : s.alerts.length ≤ maxAlerts) :
    (applySinkOps ops s).alerts.length ≤ maxAlerts := by
  induction ops generalizing s with
  | nil => simpa using h
  | cons op ops ih =>
      rw [applySinkOps_cons]
      apply ih
      cases op with
      | record a => exact displayAlert_length_le a s h
      | clear =>
          by_cases hw : s.widgetExists <;> simp [applySinkOp, clearAlerts, hw] <;>
            simpa using h

theorem displayAlert_head (a : AlertData) (s : PState) (hw : s.widgetExists = true) :
    (displayAlert a s).alerts.head? = some a := by
  unfold displayAlert
  by_cases hp : s.hasPlaceholder <;>
  rcases hx : s.alerts with _ | ⟨b, rest⟩ <;>
  by_cases hev : maxAlerts < s.alerts.length + 1 <;>
  simp_all [maxAlerts, List.dropLast_cons₂] <;>
  (try (split <;> simp [List.dropLast_cons₂]))

theorem displayAlert_evicts (a : AlertData) (s : PState) (hw : s.widgetExists = true)
    (hp : s.hasPlaceholder = false) (hlen : maxAlerts ≤ s.alerts.length) :
    (displayAlert a s).alerts = (a :: s.alerts).dropLast := by
  unfold displayAlert
  simp only [hw, hp, Bool.not_true, Bool.false_eq_true, if_false, if_true]
  split
  · rfl
  · exfalso
    simp_all [maxAlerts]
    omega

/-! ## Claim C9 -/

/-- C9: over every sequence of record/clear operations on the alert
sink, the visible history never exceeds 20 entries; recording prepends
the new alert (newest first) and, at capacity, evicts exactly the
oldest entry; clearing yields an empty feed and leaves all session
state (monitoring flag, socket, timeout, target, counters) untouched. -/
theorem c9_alert_history (cfg : Config) (ops : List SinkOp) (a : AlertData) (s : PState)
    (hw : s.widgetExists = true) :
    ((applySinkOps ops (initState cfg)).alerts.length ≤ maxAlerts) ∧
    ((displayAlert a s).alerts.head? = some a) ∧
    (s.hasPlaceholder = false → maxAlerts ≤ s.alerts.length →
       (displayAlert a s).alerts = (a :: s.alerts).dropLast) ∧
    ((clearAlerts s).alerts = [] ∧ (clearAlerts s).isMonitoring = s.isMonitoring ∧
       (clearAlerts s).socket = s.socket ∧
       (clearAlerts s).requestFrameId = s.requestFrameId ∧
       (clearAlerts s).targetVideoElement = s.targetVideoElement ∧
       (clearAlerts s).reconnectAttempts = s.reconnectAttempts ∧
       (clearAlerts s).frameErrorCount = s.frameErrorCount) := by
  refine ⟨?_, displayAlert_head a s hw, fun hp hlen => displayAlert_evicts a s hw hp hlen, ?_⟩
  · exact applySinkOps_length_le ops _ (by simp [initState])
  · refine ⟨?_, ?_, ?_, ?_, ?_, ?_, ?_⟩ <;> simp [clearAlerts, hw]

/-- Witness for C9 at concrete inputs: one record then a clear on the
fresh injection state. -/
theorem c9_alert_history_witness :
    (applySinkOps [SinkOp.record sessionEndedAlert, SinkOp.clear]
        demoInit).alerts.length ≤ maxAlerts ∧
    (displayAlert sessionEndedAlert demoInit).alerts.head? = some sessionEndedAlert := by
  have h := c9_alert_history {} [SinkOp.record sessionEndedAlert, SinkOp.clear]
    sessionEndedAlert demoInit rfl
  exact ⟨h.1, h.2.1⟩

end AIProctor

namespace AIProctor

/-! ## Claim C4 -/

/-- C4: `frameErrorCount` stays strictly below the ceiling of 10 in
every reachable state; on a monitored tick with a ready, attached
target, a successful encode with the socket connected resets the count
to 0; an encoding failure below the ceiling silently increments it by
one and the loop continues (monitoring stays on, the next tick is
scheduled, no notice is rendered); and the failure that makes the count
first reach 10 stops the session — monitoring off, socket closed,
timeout cancelled, count reset. -/
theorem c4_frame_error_policy (cfg : Config) (evs : List Ev)
    (s : PState) (t v : Nat) (env : TickEnv)
    (hm : s.isMonitoring = true) (ht : s.targetVideoElement = some v)
    (h3 : env.targetReady = true) (h4 : env.targetInDom = true) :
    ((run evs (initState cfg)).frameErrorCount < maxFrameErrors) ∧
    (env.encodeOk = true → s.socket = some true →
      (sendVideoFrame t env s).frameErrorCount = 0) ∧
    (env.encodeOk = false → s.frameErrorCount + 1 < maxFrameErrors →
      (sendVideoFrame t env s).frameErrorCount = s.frameErrorCount + 1 ∧
      (sendVideoFrame t env s).isMonitoring = true ∧
      (sendVideoFrame t env s).requestFrameId = some (t + s.frameIntervalMs) ∧
      (sendVideoFrame t env s).noticesShown = s.noticesShown) ∧
    (env.encodeOk = false → s.frameErrorCount + 1 = maxFrameErrors →
      (sendVideoFrame t env s).isMonitoring = false ∧
      (sendVideoFrame t env s).frameErrorCount = 0 ∧
      (sendVideoFrame t env s).socket = none ∧
      (sendVideoFrame t env s).requestFrameId = none) := by
  refine ⟨?_, ?_, ?_, ?_⟩
  · exact run_inv (fun st => st.frameErrorCount < maxFrameErrors) step_frameBound
      evs (initState cfg) (by simp [initState, maxFrameErrors])
  · intro henc hsock
    unfold sendVideoFrame
    simp [hm, ht, h3, h4, henc, hsock]
  · intro henc hlt
    have hcond : ¬ maxFrameErrors ≤ s.frameErrorCount + 1 := by
      intro hc
      have h1 : (10 : Nat) ≤ s.frameErrorCount + 1 := hc
      have h2 : s.frameErrorCount + 1 < 10 := hlt
      omega
    unfold sendVideoFrame
    simp [hm, ht, h3, h4, henc, hcond]
  · intro henc heq
    have hcond : maxFrameErrors ≤ s.frameErrorCount + 1 := heq.ge
    unfold sendVideoFrame
    simp [hm, ht, h3, h4, henc, hcond]

/-- Witness for C4: a failing encode on the live demo session (count 0)
increments the count to 1 and keeps monitoring on. -/
theorem c4_frame_error_policy_witness :
    (sendVideoFrame 1100 { targetReady := true, targetInDom := true, encodeOk := false }
        demoMon).frameErrorCount = demoMon.frameErrorCount + 1 ∧
    (sendVideoFrame 1100 envOK demoMon).frameErrorCount = 0 := by
  have h := c4_frame_error_policy {} [] demoMon 1100 1
    { targetReady := true, targetInDom := true, encodeOk := false } rfl rfl rfl rfl
  have h2 := c4_frame_error_policy {} [] demoMon 1100 1 envOK rfl rfl rfl rfl
  exact ⟨(h.2.2.1 rfl (by decide)).1, h2.2.1 rfl rfl⟩

/-! ## Claim C5 -/

/-- C5: in every reachable state the reconnect counter never exceeds
`maxReconnectAttempts`; the `connect` handler resets it to zero; and a
`connect_error` that reaches the bound (with the widget present) stops
the session terminally — all resources are released, in particular the
socket is disconnected and nulled so no further retry can be made. -/
theorem c5_reconnect_bound (cfg : Config) (evs : List Ev) (s : PState)
    (t : Nat) (env : TickEnv) (c : Bool) (hs : s.socket = some c) :
    ((run evs (initState cfg)).reconnectAttempts ≤
       (run evs (initState cfg)).maxReconnectAttempts) ∧
    ((onConnect t env s).reconnectAttempts = 0) ∧
    (s.widgetExists = true → s.maxReconnectAttempts ≤ s.reconnectAttempts + 1 →
      Released (onConnectError s)) := by
  refine ⟨?_, ?_, ?_⟩
  · exact run_inv (fun st => st.reconnectAttempts ≤ st.maxReconnectAttempts)
      step_reconnectBound evs (initState cfg) (by simp [initState])
  · simp only [onConnect, hs]
    rcases sendVideoFrame_reconnectAttempts t env _ with hc | hc <;> rw [hc] <;> simp
  · intro hw hbnd
    unfold onConnectError
    simp only [hs, hw, Bool.not_true, Bool.false_eq_true, if_false]
    simp [hbnd, Released]

/-- Witness for C5: a fifth consecutive connection error under the
default bound of 5 releases the session. -/
theorem c5_reconnect_bound_witness :
    (onConnect 0 envOK demoStart).reconnectAttempts = 0 ∧
    Released (onConnectError demoErr4) := by
  have h1 := c5_reconnect_bound {} [] demoStart 0 envOK false rfl
  have h2 := c5_reconnect_bound {} [] demoErr4 0 envOK false rfl
  exact ⟨h1.2.1, h2.2.2 rfl (by decide)⟩

/-! ## Claim C8 -/

/-- C8 as stated is refuted: when the selected target leaves the
document mid-session while another qualifying video is available on the
page (`replacementAvailable = true`), no re-acquisition is attempted —
there is no `bestGuess()` in the code — and the session stops anyway,
with the "Candidate Video Lost" notice shown exactly once. -/
theorem c8_target_lost_counterexample :
    (run [Ev.selectCandidate 1, Ev.startClick true, Ev.connect 0 envOK,
          Ev.tick 1000 envLostR] (initState {})).isMonitoring = false ∧
    (run [Ev.selectCandidate 1, Ev.startClick true, Ev.connect 0 envOK,
          Ev.tick 1000 envLostR] (initState {})).targetVideoElement = none ∧
    (run [Ev.selectCandidate 1, Ev.startClick true, Ev.connect 0 envOK,
          Ev.tick 1000 envLostR] (initState {})).noticesShown.count
        videoLostAlert.alert = 1 ∧
    envLostR.replacementAvailable = true := by
  refine ⟨rfl, rfl, by decide, rfl⟩

/-- C8 (corrected): target loss is treated as fatal, not recoverable:
on a monitored tick whose ready target has left the document, with the
widget present, the handler renders the "Candidate Video Lost" notice
exactly once and stops the session unconditionally; and the tick
outcome is entirely independent of whether a replacement video is
available on the page. -/
theorem c8_target_lost_stops (s : PState) (t v : Nat) (env e1 e2 : TickEnv)
    (hm : s.isMonitoring = true) (ht : s.targetVideoElement = some v)
    (hw : s.widgetExists = true)
    (h3 : env.targetReady = true) (h4 : env.targetInDom = false)
    (hr : e1.targetReady = e2.targetReady) (hd : e1.targetInDom = e2.targetInDom)
    (he : e1.encodeOk = e2.encodeOk) :
    ((sendVideoFrame t env s).noticesShown.count videoLostAlert.alert
        = s.noticesShown.count videoLostAlert.alert + 1) ∧
    (sendVideoFrame t env s).isMonitoring = false ∧
    (sendVideoFrame t env s).targetVideoElement = none ∧
    (sendVideoFrame t env s).socket = none ∧
    sendVideoFrame t e1 s = sendVideoFrame t e2 s := by
  have hstep : sendVideoFrame t env s
      = stopMonitoring (displayAlert videoLostAlert
          { s with requestFrameId := some (t + s.frameIntervalMs) }) := by
    unfold sendVideoFrame
    simp [hm, ht, h3, h4]
  refine ⟨?_, ?_, ?_, ?_, ?_⟩
  · rw [hstep, stopMonitoring_noticesShown]
    simp only [displayAlert_widgetExists, hw, if_true]
    rw [displayAlert_noticesShown]
    simp only [hw, if_true]
    simp [List.count_cons, sessionEndedAlert, videoLostAlert]
  · rw [hstep]; simp
  · rw [hstep]; simp
  · rw [hstep]; simp
  · rcases e1 with ⟨r1, d1, k1, p1⟩
    rcases e2 with ⟨r2, d2, k2, p2⟩
    simp only at hr hd he
    subst hr; subst hd; subst he
    rfl

/-- Witness for the corrected C8 on the live demo session with a
replacement available. -/
theorem c8_target_lost_stops_witness :
    (sendVideoFrame 1100 envLostR demoMon).isMonitoring = false ∧
    (sendVideoFrame 1100 envLostR demoMon).noticesShown.count videoLostAlert.alert
      = demoMon.noticesShown.count videoLostAlert.alert + 1 := by
  have h := c8_target_lost_stops demoMon 1100 1 envLostR envOK envOK
    rfl rfl rfl rfl rfl rfl rfl rfl
  exact ⟨h.2.1, h.1⟩

end AIProctor
